import Mathlib

/-!
Verification of the SolarEdge/Emporia EV auto-charge controller
(`solaredge-emporia-autocharge.py`) against its natural-language design.

The script's arithmetic on Python floats is embedded as exact rational
arithmetic (`ℚ`); Python's `round(x, 2)` is embedded as round-half-to-even
at two decimal places, and Python's `int(x)` as truncation toward zero.
The two vendor HTTP calls and the setpoint write are embedded as `Except`
valued inputs supplied by the environment, and the per-cycle body
`update_charge_amp_by_solaredge_data` plus the `while True` service loop
are embedded as explicit state-passing functions.
-/

/-- Round-half-to-even to the nearest integer (the tie-breaking rule of
Python's `round`). -/
def rhe (q : ℚ) : ℤ :=
  let f := ⌊q⌋
  let r := q - (f : ℚ)
  if r < 1/2 then f
  else if 1/2 < r then f + 1
  else if f % 2 = 0 then f else f + 1

/-- Python's `round(x, 2)`: round to two decimal places, ties to even. -/
def round2 (q : ℚ) : ℚ := (rhe (q * 100) : ℚ) / 100

/-- Python's `int(x)` on a float: truncation toward zero. -/
def ratTrunc (q : ℚ) : ℤ := if 0 ≤ q then ⌊q⌋ else ⌈q⌉

/-- Hard floor constant `MIN_AMPS = 6` (line 32). -/
def MIN_AMPS : ℤ := 6

/-- Hard ceiling constant `MAX_AMPS = 40` (line 33). -/
def MAX_AMPS : ℤ := 40

/-- Effective `min_amps` after startup processing (lines 49, 71-72):
default `MIN_AMPS`; a user-supplied value `v` becomes `max v MIN_AMPS`. -/
def min_amps_config (arg : Option ℤ) : ℤ :=
  match arg with
  | none => MIN_AMPS
  | some v => max v MIN_AMPS

/-- Effective `max_amps` after startup processing (lines 50, 74-75):
default `MAX_AMPS`; a user-supplied value `v` becomes `min v MAX_AMPS`. -/
def max_amps_config (arg : Option ℤ) : ℤ :=
  match arg with
  | none => MAX_AMPS
  | some v => min v MAX_AMPS

/-- Line 229: `amps_from_kw = int(average_kw * 1000 / 240)`. -/
def amps_from_kw (v : ℚ) : ℤ := ratTrunc (v * 1000 / 240)

/-- Line 231: `final_amps = max(min(amps, max_amps), min_amps)`. -/
def clamp_amps (amps mn mx : ℤ) : ℤ := max (min amps mx) mn

/-- Lines 229-231 combined: smoothed kW to the final commanded amperage. -/
def final_amps (v : ℚ) (offset mn mx : ℤ) : ℤ :=
  clamp_amps (amps_from_kw v + offset) mn mx

/-- The spec's `AmpDecisionEngine.decide`, read off lines 229-231 and the
`pre_change` comparison of lines 237-243: returns the commanded amperage
and whether it differs from the last commanded one. -/
def decide_amp (v : ℚ) (offset mn mx last : ℤ) : ℤ × Bool :=
  let fin := final_amps v offset mn mx
  if last = fin then (fin, false) else (fin, true)

/-! ### Evaluation lemmas for concrete rationals

Mathlib's `ℚ` instance tower does not kernel-reduce, so concrete values of
`⌊⌋`, `⌈⌉`, `rhe`, `round2` and `ratTrunc` are established through the
following lemmas, with the arithmetic side conditions closed by `norm_num`. -/

theorem floorQ (q : ℚ) (z : ℤ) (h1 : (z : ℚ) ≤ q) (h2 : q < z + 1) : ⌊q⌋ = z :=
  Int.floor_eq_iff.mpr ⟨h1, h2⟩

theorem ceilQ (q : ℚ) (z : ℤ) (h1 : (z : ℚ) - 1 < q) (h2 : q ≤ z) : ⌈q⌉ = z :=
  Int.ceil_eq_iff.mpr ⟨h1, h2⟩

theorem rhe_low (q : ℚ) (f : ℤ) (hf : ⌊q⌋ = f) (h : q - f < 1/2) : rhe q = f := by
  unfold rhe
  rw [hf]
  rw [if_pos h]

theorem rhe_high (q : ℚ) (f : ℤ) (hf : ⌊q⌋ = f) (h : 1/2 < q - f) : rhe q = f + 1 := by
  unfold rhe
  rw [hf]
  rw [if_neg (by linarith), if_pos h]

theorem rhe_tie_even (q : ℚ) (f : ℤ) (hf : ⌊q⌋ = f) (h : q - f = 1/2)
    (he : f % 2 = 0) : rhe q = f := by
  unfold rhe
  rw [hf]
  rw [if_neg (by rw [h]; exact lt_irrefl _), if_neg (by rw [h]; exact lt_irrefl _), if_pos he]

theorem rhe_intCast (a : ℤ) : rhe (a : ℚ) = a := by
  apply rhe_low _ _ (Int.floor_intCast a)
  norm_num

theorem round2_eval (q : ℚ) (a : ℤ) (h : rhe (q * 100) = a) : round2 q = (a : ℚ) / 100 := by
  unfold round2
  rw [h]

/-- `round2` is the identity on rationals that are exact at two decimal
places. -/
theorem round2_exact (a : ℤ) : round2 ((a : ℚ) / 100) = (a : ℚ) / 100 := by
  have h : ((a : ℚ) / 100) * 100 = (a : ℚ) := by field_simp
  unfold round2
  rw [h, rhe_intCast]

theorem ratTrunc_nonneg (q : ℚ) (z : ℤ) (h0 : 0 ≤ q) (hf : ⌊q⌋ = z) : ratTrunc q = z := by
  unfold ratTrunc
  rw [if_pos h0, hf]

theorem ratTrunc_neg (q : ℚ) (z : ℤ) (h0 : ¬ 0 ≤ q) (hc : ⌈q⌉ = z) : ratTrunc q = z := by
  unfold ratTrunc
  rw [if_neg h0, hc]

/-! ### The smoothing filter (`sliding_average`, lines 179-192)

The Python function keeps its buffer in a function attribute; here the
buffer is passed explicitly and the new buffer is returned. -/

/-- Python's slice `l[-n:]` as used at line 189: for `n > 0` the last `n`
elements (all of them when fewer), and for `n = 0` the whole list, since
`l[-0:]` is `l[0:]`. -/
def pySliceLast (l : List ℚ) (n : ℕ) : List ℚ :=
  if n = 0 then l else l.drop (l.length - n)

/-- Buffer update of one `sliding_average` call (lines 185-189): append
`num`, then when the buffer exceeds `list_size` keep `values[-list_size:]`. -/
def sliding_average_step (values : List ℚ) (num : ℚ) (list_size : ℕ) : List ℚ :=
  let vs := values ++ [num]
  if vs.length > list_size then pySliceLast vs list_size else vs

/-- One full `sliding_average` call (lines 179-192): the updated buffer and
the arithmetic mean of its contents (line 192). -/
def sliding_average (values : List ℚ) (num : ℚ) (list_size : ℕ) : List ℚ × ℚ :=
  let vs := sliding_average_step values num list_size
  (vs, vs.sum / (vs.length : ℚ))

/-- Buffer contents after feeding the whole sequence `xs` into the filter,
starting from the empty startup buffer (line 182). -/
def runObserve (xs : List ℚ) (n : ℕ) : List ℚ :=
  xs.foldl (fun b x => sliding_average_step b x n) []

theorem runObserve_snoc (xs : List ℚ) (x : ℚ) (n : ℕ) :
    runObserve (xs ++ [x]) n = sliding_average_step (runObserve xs n) x n := by
  unfold runObserve
  rw [List.foldl_append]
  rfl

/-- A buffer holding the last `n` values of `xs` is sent by one observe
step to the last `n` values of `xs ++ [x]`, for any positive window. -/
theorem sliding_step_lastN (n : ℕ) (hn : 1 ≤ n) (xs : List ℚ) (x : ℚ) :
    sliding_average_step (xs.drop (xs.length - n)) x n
      = (xs ++ [x]).drop ((xs ++ [x]).length - n) := by
  by_cases hm : xs.length < n
  · have h0 : xs.length - n = 0 := by omega
    have h1 : (xs ++ [x]).length - n = 0 := by
      simp only [List.length_append, List.length_cons, List.length_nil]
      omega
    rw [h0, h1]
    simp only [List.drop_zero]
    unfold sliding_average_step
    rw [if_neg (by simp only [List.length_append, List.length_cons, List.length_nil]; omega)]
  · push_neg at hm
    have hbl : (xs.drop (xs.length - n)).length = n := by
      rw [List.length_drop]
      omega
    unfold sliding_average_step
    rw [if_pos (by simp only [List.length_append, List.length_cons, List.length_nil, hbl]; omega)]
    unfold pySliceLast
    rw [if_neg (by omega)]
    have hlen1 : (xs.drop (xs.length - n) ++ [x]).length - n = 1 := by
      simp only [List.length_append, List.length_cons, List.length_nil, hbl]
      omega
    have hlen2 : (xs ++ [x]).length - n = (xs.length + 1 - n) := by
      simp only [List.length_append, List.length_cons, List.length_nil]
    rw [hlen1, hlen2]
    rw [List.drop_append_of_le_length (by omega)]
    rw [List.drop_append_of_le_length (by omega)]
    rw [List.drop_drop]
    rw [show xs.length - n + 1 = xs.length + 1 - n by omega]

/-- For a positive window the filter buffer is always exactly the suffix of
the inputs seen so far, of length at most `n`. -/
theorem runObserve_eq_lastN (n : ℕ) (hn : 1 ≤ n) (xs : List ℚ) :
    runObserve xs n = xs.drop (xs.length - n) := by
  induction xs using List.reverseRecOn with
  | nil => simp [runObserve]
  | append_singleton ys y ih =>
    rw [runObserve_snoc, ih, sliding_step_lastN n hn]

/-- With window size `0`, one observe step just appends: the trim keeps the
whole list because `values[-0:]` is `values`. -/
theorem sliding_step_zero (values : List ℚ) (num : ℚ) :
    sliding_average_step values num 0 = values ++ [num] := by
  unfold sliding_average_step pySliceLast
  by_cases h : (values ++ [num]).length > 0
  · rw [if_pos h, if_pos rfl]
  · rw [if_neg h]

/-- With window size `0` the buffer accumulates every value ever observed. -/
theorem runObserve_zero (xs : List ℚ) : runObserve xs 0 = xs := by
  induction xs using List.reverseRecOn with
  | nil => rfl
  | append_singleton ys y ih =>
    rw [runObserve_snoc, ih, sliding_step_zero]

/-! ### Data fusion (lines 212-224) -/

/-- Line 216: `prod_min_cons_kw = round(prod_kw - cons_kw, 2)`. -/
def prod_min_cons_kw (p c : ℚ) : ℚ := round2 (p - c)

/-- Line 221: the charger's draw normalized to kW,
`cur_charger_usage_kw = round(usage * 60.0, 2)`. -/
def cur_charger_usage_kw (u : ℚ) : ℚ := round2 (u * 60)

/-- Line 223 as a function of the already-normalized charger draw `d`:
`available_for_charger_kw = round(prod_min_cons_kw + d, 2)`. -/
def fused_available_kw (p c d : ℚ) : ℚ := round2 (prod_min_cons_kw p c + d)

/-- Lines 212-223 combined: the fused available-for-charger power computed
from the two raw readings `p`, `c` (SolarEdge) and `u` (Emporia kWh/min). -/
def available_for_charger_kw (p c u : ℚ) : ℚ :=
  fused_available_kw p c (cur_charger_usage_kw u)

/-! ### The control cycle (lines 195-243) and service loop (lines 249-254) -/

/-- Startup configuration after argument processing (lines 46-78). -/
structure Config where
  smooth : ℕ
  min_amps : ℤ
  max_amps : ℤ
  offset_amps : ℤ

/-- One cycle's external world: the outcome of the SolarEdge power-flow
call (line 198), of the Emporia usage call (line 220), and of the setpoint
write (line 242).  The `actualRate` field is modelled from the spec: the
setpoint the ChargerController would report if it were re-read at cycle
start; the script never queries it after the startup discovery
(lines 161-176), so no code path reads this field. -/
structure Env where
  powerFlow : Except Unit (ℚ × ℚ)
  chargerUsage : Except Unit ℚ
  updateResult : Except Unit ℤ
  actualRate : ℤ

/-- Modelled from the spec: the last-known setpoint the decision step is
claimed to use — re-read from the ChargerController at cycle start. -/
def spec_last_commanded (env : Env) : ℤ := env.actualRate

/-- Result of one call of `update_charge_amp_by_solaredge_data`: the
smoothing buffer, the cached `charger_device.ev_charger.charging_rate`,
the `pre_change` value read at line 237 (`none` when that line is never
reached), the setpoint sent through `vue.update_charger` (line 242, `none`
when no write was attempted), and whether an uncaught exception escaped
the call. -/
structure CycleOut where
  buf : List ℚ
  rate : ℤ
  preChange : Option ℤ
  issued : Option ℤ
  crashed : Bool

/-- Line 226 for one cycle: the smoothed value
`average_kw = round(sliding_average(available_for_charger_kw, smooth), 2)`. -/
def average_kw (cfg : Config) (buf : List ℚ) (p c u : ℚ) : ℚ :=
  round2 ((sliding_average buf (available_for_charger_kw p c u) cfg.smooth).2)

/-- The smoothing buffer after line 226's call. -/
def cycle_buf (cfg : Config) (buf : List ℚ) (p c u : ℚ) : List ℚ :=
  (sliding_average buf (available_for_charger_kw p c u) cfg.smooth).1

/-- Lines 229-231 for one cycle: the `final_amps` value computed from this
cycle's smoothed reading and the configuration. -/
def cycle_final (cfg : Config) (buf : List ℚ) (p c u : ℚ) : ℤ :=
  final_amps (average_kw cfg buf p c u) cfg.offset_amps cfg.min_amps cfg.max_amps

/-- The body of `update_charge_amp_by_solaredge_data` (lines 195-243).
Only the SolarEdge call sits inside a `try` (lines 197-201); an error from
the Emporia usage call (line 220) or from `vue.update_charger` (line 242)
propagates out of the function uncaught (`crashed = true`).  Line 241
assigns `charger.charging_rate = final_amps` on the cached charger object
before the write, so the cached rate becomes `final_amps` whenever a write
is attempted, whatever the write returns. -/
def update_charge_amp_by_solaredge_data (cfg : Config) (env : Env)
    (buf : List ℚ) (rate : ℤ) : CycleOut :=
  match env.powerFlow with
  | Except.error _ => ⟨buf, rate, none, none, false⟩
  | Except.ok (p, c) =>
    match env.chargerUsage with
    | Except.error _ => ⟨buf, rate, none, none, true⟩
    | Except.ok u =>
      if rate = cycle_final cfg buf p c u then
        ⟨cycle_buf cfg buf p c u, rate, some rate, none, false⟩
      else
        match env.updateResult with
        | Except.error _ =>
          ⟨cycle_buf cfg buf p c u, cycle_final cfg buf p c u, some rate,
            some (cycle_final cfg buf p c u), true⟩
        | Except.ok _ =>
          ⟨cycle_buf cfg buf p c u, cycle_final cfg buf p c u, some rate,
            some (cycle_final cfg buf p c u), false⟩

/-- Result of running the service loop over a finite schedule of cycles:
final buffer, final cached rate, whether the process died on an uncaught
exception, and how many cycles were entered. -/
structure LoopOut where
  buf : List ℚ
  rate : ℤ
  crashed : Bool
  cycles : ℕ

/-- The `while True` service loop (lines 249-254), run over a finite
schedule of environments.  The loop body has no exception handler, so a
crashing cycle ends the process; otherwise the loop sleeps and continues. -/
def runLoop (cfg : Config) : List Env → List ℚ → ℤ → LoopOut
  | [], buf, rate => ⟨buf, rate, false, 0⟩
  | env :: envs, buf, rate =>
    let o := update_charge_amp_by_solaredge_data cfg env buf rate
    if o.crashed then ⟨o.buf, o.rate, true, 1⟩
    else
      let rest := runLoop cfg envs o.buf o.rate
      ⟨rest.buf, rest.rate, rest.crashed, rest.cycles + 1⟩

theorem runLoop_cons (cfg : Config) (env : Env) (envs : List Env)
    (buf : List ℚ) (rate : ℤ) :
    runLoop cfg (env :: envs) buf rate =
      (if (update_charge_amp_by_solaredge_data cfg env buf rate).crashed then
        ⟨(update_charge_amp_by_solaredge_data cfg env buf rate).buf,
         (update_charge_amp_by_solaredge_data cfg env buf rate).rate, true, 1⟩
      else
        ⟨(runLoop cfg envs (update_charge_amp_by_solaredge_data cfg env buf rate).buf
            (update_charge_amp_by_solaredge_data cfg env buf rate).rate).buf,
         (runLoop cfg envs (update_charge_amp_by_solaredge_data cfg env buf rate).buf
            (update_charge_amp_by_solaredge_data cfg env buf rate).rate).rate,
         (runLoop cfg envs (update_charge_amp_by_solaredge_data cfg env buf rate).buf
            (update_charge_amp_by_solaredge_data cfg env buf rate).rate).crashed,
         (runLoop cfg envs (update_charge_amp_by_solaredge_data cfg env buf rate).buf
            (update_charge_amp_by_solaredge_data cfg env buf rate).rate).cycles + 1⟩) := rfl

/-! ### Concrete fixtures used by witnesses and counterexamples -/

/-- Default configuration: `smooth=5`, `min_amps=6`, `max_amps=40`,
`offset_amps=0`. -/
def cfg0 : Config := ⟨5, 6, 40, 0⟩

/-- Cycle in which the SolarEdge call raises. -/
def envFlowErr : Env := ⟨Except.error (), Except.ok 0, Except.ok 0, 0⟩

/-- Cycle in which the Emporia usage call raises. -/
def envUsageErr : Env := ⟨Except.ok (1, 1), Except.error (), Except.ok 0, 0⟩

/-- Cycle in which both reads succeed (production 5 kW, consumption 2 kW,
charger usage 1/40 kWh over the minute) and the setpoint write fails. -/
def envWriteErr : Env := ⟨Except.ok (5, 2), Except.ok (1/40), Except.error (), 0⟩

/-- Cycle with the same successful readings, a successful write, and an
out-of-band setpoint (20 A) sitting on the charger. -/
def envOOB : Env := ⟨Except.ok (5, 2), Except.ok (1/40), Except.ok 18, 20⟩

/-- A cycle whose readings are never consumed in the runs below. -/
def envGood : Env := ⟨Except.ok (1, 1), Except.ok 0, Except.ok 0, 0⟩

theorem avail_eval : available_for_charger_kw 5 2 (1/40) = 9/2 := by
  unfold available_for_charger_kw fused_available_kw prod_min_cons_kw cur_charger_usage_kw
  rw [show ((5:ℚ) - 2) = ((300:ℤ):ℚ)/100 from by norm_num, round2_exact]
  rw [show ((1:ℚ)/40 * 60) = ((150:ℤ):ℚ)/100 from by norm_num, round2_exact]
  rw [show (((300:ℤ):ℚ)/100 + ((150:ℤ):ℚ)/100) = ((450:ℤ):ℚ)/100 from by norm_num,
    round2_exact]
  norm_num

theorem step_eval : sliding_average_step [] (9/2 : ℚ) 5 = [9/2] := by
  unfold sliding_average_step
  rw [if_neg (by simp)]
  simp

theorem cycle_buf_eval : cycle_buf cfg0 [] 5 2 (1/40) = [9/2] := by
  unfold cycle_buf sliding_average
  rw [avail_eval]
  exact step_eval

theorem avg_eval : average_kw cfg0 [] 5 2 (1/40) = 9/2 := by
  unfold average_kw sliding_average
  rw [avail_eval]
  show round2 (([(9/2 : ℚ)].sum) / (([(9/2 : ℚ)].length : ℕ) : ℚ)) = 9/2
  rw [show (([(9/2 : ℚ)].sum) / (([(9/2 : ℚ)].length : ℕ) : ℚ)) = ((450:ℤ):ℚ)/100 from by
    simp; norm_num]
  rw [round2_exact]
  norm_num

theorem amps18_eval : amps_from_kw (9/2) = 18 := by
  unfold amps_from_kw
  apply ratTrunc_nonneg _ _ (by norm_num)
  apply floorQ <;> norm_num

theorem cycle_final_eval : cycle_final cfg0 [] 5 2 (1/40) = 18 := by
  unfold cycle_final final_amps clamp_amps
  rw [avg_eval, amps18_eval]
  decide

/-! ### Claims -/

/-- C1 counterexample: the startup clamp bounds `min_amps` only from below
(`max(int(arg), 6)`), so the accepted configuration `min_amps=100` (with the
default `max_amps=40`) makes the commanded amperage 100, above the claimed
hard ceiling of 40. -/
theorem C1_counterexample :
    final_amps 0 0 (min_amps_config (some 100)) (max_amps_config none) = 100 ∧
    ¬ final_amps 0 0 (min_amps_config (some 100)) (max_amps_config none) ≤ 40 := by
  have h0 : amps_from_kw 0 = 0 := by
    unfold amps_from_kw
    apply ratTrunc_nonneg _ _ (by norm_num)
    apply floorQ <;> norm_num
  unfold final_amps clamp_amps
  rw [h0]
  exact ⟨by decide, by decide⟩

/-- C1 (amended): for every accepted configuration and every smoothed input
the commanded amperage is at least 6; it is also at most 40 provided the
effective `min_amps` does not exceed 40 (which the startup processing does
not ensure: user-supplied `min_amps` above 40 is accepted unclamped). -/
theorem C1_clamp_bounds (v : ℚ) (offset : ℤ) (argMin argMax : Option ℤ) :
    6 ≤ final_amps v offset (min_amps_config argMin) (max_amps_config argMax) ∧
    (min_amps_config argMin ≤ 40 →
      final_amps v offset (min_amps_config argMin) (max_amps_config argMax) ≤ 40) := by
  have hmn : 6 ≤ min_amps_config argMin := by
    cases argMin with
    | none => decide
    | some m => exact le_max_right m 6
  have hmx : max_amps_config argMax ≤ 40 := by
    cases argMax with
    | none => decide
    | some m => exact min_le_right m 40
  unfold final_amps clamp_amps
  exact ⟨by omega, fun h => by omega⟩

/-- C1 witness: with the default configuration the bounds hold at input 0. -/
theorem C1_witness :
    6 ≤ final_amps 0 0 (min_amps_config none) (max_amps_config none) ∧
    final_amps 0 0 (min_amps_config none) (max_amps_config none) ≤ 40 :=
  ⟨(C1_clamp_bounds 0 0 none none).1, (C1_clamp_bounds 0 0 none none).2 (by decide)⟩

/-- C5 counterexample: the fused value is rounded to two decimal places
(twice), so with production 1/200 kW (= 0.005), consumption 0 and charger
draw 0 the code feeds 0 to the filter, not p − c + d = 1/200. -/
theorem C5_counterexample :
    fused_available_kw (1/200) 0 0 = 0 ∧ ((1:ℚ)/200 - 0 + 0) ≠ 0 := by
  constructor
  · unfold fused_available_kw prod_min_cons_kw
    have h2 : round2 ((1:ℚ)/200 - 0) = 0 := by
      have h : rhe (((1:ℚ)/200 - 0) * 100) = 0 := by
        apply rhe_tie_even _ 0 ?_ (by norm_num) (by decide)
        apply floorQ <;> norm_num
      have := round2_eval _ _ h
      simpa using this
    rw [h2]
    rw [show ((0:ℚ) + 0) = ((0:ℤ):ℚ)/100 from by norm_num, round2_exact]
    norm_num
  · norm_num

/-- C5 (amended): the value fed to the smoothing filter is
`round(round(p − c, 2) + d, 2)`; it equals `p − c + d` exactly whenever
`p − c` and `d` are exact at two decimal places.  It may be negative and is
not clamped at this stage. -/
theorem C5_fused_exact (p c d : ℚ) (a b : ℤ)
    (hpc : p - c = (a:ℚ)/100) (hd : d = (b:ℚ)/100) :
    fused_available_kw p c d = p - c + d := by
  unfold fused_available_kw prod_min_cons_kw
  rw [hpc, hd, round2_exact]
  rw [show ((a:ℚ)/100 + (b:ℚ)/100) = (((a + b : ℤ)):ℚ)/100 from by push_cast; ring]
  rw [round2_exact]

/-- C5 witness: production 5 kW, consumption 2 kW, charger draw 1.5 kW fuse
to exactly 4.5 kW. -/
theorem C5_witness : fused_available_kw 5 2 (3/2) = 5 - 2 + 3/2 :=
  C5_fused_exact 5 2 (3/2) 300 150 (by norm_num) (by norm_num)

/-- C6 counterexample: with the inverted (but accepted) range
`min_amps = 45 > max_amps = 40` and `amps = 50 > max_amps`, the clamp
returns 45, not the claimed nearest bound 40. -/
theorem C6_counterexample :
    clamp_amps 50 45 40 = 45 ∧ (40:ℤ) < 50 ∧ (45:ℤ) ≠ 40 := by
  refine ⟨?_, by decide, by decide⟩
  unfold clamp_amps
  decide

/-- C6 (amended): provided `minAmps ≤ maxAmps`, the clamp returns the
nearest bound outside the range and the identity inside it.  (Without that
proviso the `amps > maxAmps` case returns `minAmps`, as the counterexample
shows.) -/
theorem C6_clamp_cases (amps mn mx : ℤ) (h : mn ≤ mx) :
    (amps < mn → clamp_amps amps mn mx = mn) ∧
    (mx < amps → clamp_amps amps mn mx = mx) ∧
    (mn ≤ amps → amps ≤ mx → clamp_amps amps mn mx = amps) := by
  unfold clamp_amps
  exact ⟨fun h1 => by omega, fun h1 => by omega, fun h1 h2 => by omega⟩

/-- C6 witness: the three cases evaluated on the default range 6..40. -/
theorem C6_witness :
    clamp_amps 3 6 40 = 6 ∧ clamp_amps 50 6 40 = 40 ∧ clamp_amps 18 6 40 = 18 :=
  ⟨(C6_clamp_cases 3 6 40 (by decide)).1 (by decide),
   (C6_clamp_cases 50 6 40 (by decide)).2.1 (by decide),
   (C6_clamp_cases 18 6 40 (by decide)).2.2 (by decide) (by decide)⟩

/-- C7 counterexample: `int()` truncates toward zero, so at the negative
smoothed value −1 kW the code computes −4 while the mathematical floor of
−1·1000/240 is −5. -/
theorem C7_counterexample :
    amps_from_kw (-1) = -4 ∧ ⌊((-1 : ℚ) * 1000 / 240)⌋ = -5 ∧ (-4 : ℤ) ≠ -5 := by
  refine ⟨?_, ?_, by decide⟩
  · unfold amps_from_kw
    apply ratTrunc_neg _ _ (by norm_num)
    apply ceilQ <;> norm_num
  · apply floorQ <;> norm_num

/-- C7 (amended): the pre-offset raw amperage is the truncation toward zero
of `v·1000/240`; for non-negative smoothed values this coincides with the
mathematical floor. -/
theorem C7_floor_nonneg (v : ℚ) (h : 0 ≤ v) :
    amps_from_kw v = ⌊v * 1000 / 240⌋ := by
  unfold amps_from_kw ratTrunc
  rw [if_pos (div_nonneg (mul_nonneg h (by norm_num)) (by norm_num))]

/-- C7 witness: at v = 4.5 kW the raw amperage is the floor of 4500/240. -/
theorem C7_witness : amps_from_kw (9/2) = ⌊((9/2 : ℚ) * 1000 / 240)⌋ :=
  C7_floor_nonneg (9/2) (by norm_num)

/-- C9: the decision is idempotent — feeding the first call's commanded
amperage back as `lastCommandedAmps` makes the second identical call report
no change; and at cycle level, when the cached rate already equals this
cycle's computed `final_amps`, no hardware write is issued. -/
theorem C9_idempotent :
    (∀ (v : ℚ) (offset mn mx last : ℤ),
      (decide_amp v offset mn mx ((decide_amp v offset mn mx last).1)).2 = false) ∧
    (∀ (cfg : Config) (buf : List ℚ) (p c u : ℚ) (upd : Except Unit ℤ) (ar : ℤ),
      (update_charge_amp_by_solaredge_data cfg ⟨Except.ok (p, c), Except.ok u, upd, ar⟩
        buf (cycle_final cfg buf p c u)).issued = none) := by
  constructor
  · intro v o mn mx last
    by_cases h : last = final_amps v o mn mx
    · simp [decide_amp, h]
    · simp [decide_amp, h]
  · intro cfg buf p c u upd ar
    simp [update_charge_amp_by_solaredge_data]

/-- C8: for every positive window size the buffer after any sequence of
observe calls is exactly the most recent suffix of the inputs (arrival
order, FIFO eviction) and its length never exceeds the window size. -/
theorem C8_sliding_window (n : ℕ) (hn : 1 ≤ n) (xs : List ℚ) :
    runObserve xs n = xs.drop (xs.length - n) ∧ (runObserve xs n).length ≤ n := by
  refine ⟨runObserve_eq_lastN n hn xs, ?_⟩
  rw [runObserve_eq_lastN n hn xs, List.length_drop]
  omega

/-- C8 witness: the spec's Scenario B window — after observing 10, 12, 11, 8
with window 3 the buffer is the last three values. -/
theorem C8_witness :
    runObserve [10, 12, 11, 8] 3
      = List.drop (([10, 12, 11, 8] : List ℚ).length - 3) [10, 12, 11, 8] ∧
    (runObserve ([10, 12, 11, 8] : List ℚ) 3).length ≤ 3 :=
  C8_sliding_window 3 (by decide) [10, 12, 11, 8]

/-- C10: with window size 0 the slice `values[-0:]` keeps everything, so the
buffer is never trimmed — after observing `xs` it holds all of `xs` — and
the next call returns the mean of every value observed so far. -/
theorem C10_zero_window (xs : List ℚ) (x : ℚ) :
    runObserve xs 0 = xs ∧
    (sliding_average (runObserve xs 0) x 0).1 = xs ++ [x] ∧
    (sliding_average (runObserve xs 0) x 0).2
      = (xs ++ [x]).sum / (((xs ++ [x]).length : ℕ) : ℚ) := by
  refine ⟨runObserve_zero xs, ?_, ?_⟩
  · unfold sliding_average
    rw [runObserve_zero xs, sliding_step_zero]
  · unfold sliding_average
    rw [runObserve_zero xs, sliding_step_zero]

/-- C2 (amended): a SolarEdge power-flow failure is caught (lines 197-201) —
the cycle is abandoned with the smoothing buffer untouched, no setpoint
command, and the loop continues with the next scheduled cycle; but a failure
of the Emporia usage read (line 220) is uncaught — the buffer is likewise
untouched and no command is issued, yet the exception escapes the loop body
and terminates the process. -/
theorem C2_fetch_failure (cfg : Config) (env : Env) (buf : List ℚ) (rate : ℤ) :
    (env.powerFlow = Except.error () →
      update_charge_amp_by_solaredge_data cfg env buf rate = ⟨buf, rate, none, none, false⟩ ∧
      ∀ envs, runLoop cfg (env :: envs) buf rate =
        ⟨(runLoop cfg envs buf rate).buf, (runLoop cfg envs buf rate).rate,
         (runLoop cfg envs buf rate).crashed, (runLoop cfg envs buf rate).cycles + 1⟩) ∧
    (∀ p c, env.powerFlow = Except.ok (p, c) → env.chargerUsage = Except.error () →
      update_charge_amp_by_solaredge_data cfg env buf rate = ⟨buf, rate, none, none, true⟩ ∧
      ∀ envs, runLoop cfg (env :: envs) buf rate = ⟨buf, rate, true, 1⟩) := by
  constructor
  · intro h
    have hc : update_charge_amp_by_solaredge_data cfg env buf rate
        = ⟨buf, rate, none, none, false⟩ := by
      simp [update_charge_amp_by_solaredge_data, h]
    refine ⟨hc, fun envs => ?_⟩
    rw [runLoop_cons, hc]
    rfl
  · intro p c h1 h2
    have hc : update_charge_amp_by_solaredge_data cfg env buf rate
        = ⟨buf, rate, none, none, true⟩ := by
      simp [update_charge_amp_by_solaredge_data, h1, h2]
    refine ⟨hc, fun envs => ?_⟩
    rw [runLoop_cons, hc]
    rfl

/-- C2 witness: the two fetch-failure branches evaluated on concrete cycles:
the caught SolarEdge failure leaves a clean, non-crashed state; the uncaught
Emporia usage failure leaves the same clean state but crashed. -/
theorem C2_witness :
    update_charge_amp_by_solaredge_data cfg0 envFlowErr [] 10 = ⟨[], 10, none, none, false⟩ ∧
    update_charge_amp_by_solaredge_data cfg0 envUsageErr [] 10 = ⟨[], 10, none, none, true⟩ :=
  ⟨((C2_fetch_failure cfg0 envFlowErr [] 10).1 rfl).1,
   ((C2_fetch_failure cfg0 envUsageErr [] 10).2 1 1 rfl rfl).1⟩

/-- C2 counterexample: a cycle whose Emporia usage read fails terminates the
process — with two scheduled cycles only the first runs and the run ends
crashed, refuting the claim that the loop continues to the next cycle. -/
theorem C2_counterexample :
    (runLoop cfg0 [envUsageErr, envGood] [] 10).crashed = true ∧
    (runLoop cfg0 [envUsageErr, envGood] [] 10).cycles = 1 := by
  exact ⟨rfl, rfl⟩

/-- C3 (amended): when both reads succeed and the computed amperage differs
from the cached rate, a failing `vue.update_charger` call (line 242) is
uncaught: the smoothing buffer does already contain this cycle's fused
reading, but the exception escapes and the loop terminates instead of
proceeding to the next cycle. -/
theorem C3_write_failure (cfg : Config) (env : Env) (buf : List ℚ) (rate : ℤ) (p c u : ℚ)
    (h1 : env.powerFlow = Except.ok (p, c)) (h2 : env.chargerUsage = Except.ok u)
    (h3 : env.updateResult = Except.error ()) (h4 : rate ≠ cycle_final cfg buf p c u) :
    update_charge_amp_by_solaredge_data cfg env buf rate =
      ⟨cycle_buf cfg buf p c u, cycle_final cfg buf p c u, some rate,
        some (cycle_final cfg buf p c u), true⟩ ∧
    cycle_buf cfg buf p c u
      = sliding_average_step buf (available_for_charger_kw p c u) cfg.smooth ∧
    ∀ envs, runLoop cfg (env :: envs) buf rate =
      ⟨cycle_buf cfg buf p c u, cycle_final cfg buf p c u, true, 1⟩ := by
  have hc : update_charge_amp_by_solaredge_data cfg env buf rate =
      ⟨cycle_buf cfg buf p c u, cycle_final cfg buf p c u, some rate,
        some (cycle_final cfg buf p c u), true⟩ := by
    simp [update_charge_amp_by_solaredge_data, h1, h2, h3, if_neg h4]
  refine ⟨hc, rfl, fun envs => ?_⟩
  rw [runLoop_cons, hc]
  rfl

/-- C3 witness: the write-failure branch evaluated on a concrete cycle
(production 5 kW, consumption 2 kW, charger usage 1/40 kWh/min, cached rate
10 A): the buffer keeps the fused 4.5 kW reading and the cycle crashes. -/
theorem C3_witness :
    update_charge_amp_by_solaredge_data cfg0 envWriteErr [] 10
      = ⟨[9/2], 18, some 10, some 18, true⟩ := by
  have h := (C3_write_failure cfg0 envWriteErr [] 10 5 2 (1/40) rfl rfl rfl
    (by rw [cycle_final_eval]; decide)).1
  rw [h, cycle_buf_eval, cycle_final_eval]

/-- C3 counterexample: with a failing setpoint write, only one of two
scheduled cycles runs and the process dies — refuting the claim that the
write failure is non-fatal — even though the smoothing window did absorb
this cycle's fused reading (4.5 kW). -/
theorem C3_counterexample :
    (runLoop cfg0 [envWriteErr, envGood] [] 10).crashed = true ∧
    (runLoop cfg0 [envWriteErr, envGood] [] 10).cycles = 1 ∧
    (runLoop cfg0 [envWriteErr, envGood] [] 10).buf = [9/2] := by
  have hc : update_charge_amp_by_solaredge_data cfg0 envWriteErr [] 10
      = ⟨[9/2], 18, some 10, some 18, true⟩ := by
    simp only [update_charge_amp_by_solaredge_data,
      show envWriteErr.powerFlow = Except.ok ((5:ℚ), (2:ℚ)) from rfl,
      show envWriteErr.chargerUsage = Except.ok ((1:ℚ)/40) from rfl,
      show envWriteErr.updateResult = Except.error () from rfl,
      if_neg (show ¬ ((10:ℤ) = cycle_final cfg0 [] 5 2 (1/40)) from by
        rw [cycle_final_eval]; decide)]
    rw [cycle_buf_eval, cycle_final_eval]
  have hl : runLoop cfg0 [envWriteErr, envGood] [] 10 = ⟨[9/2], 18, true, 1⟩ := by
    rw [runLoop_cons, hc]
    rfl
  rw [hl]
  exact ⟨rfl, rfl, rfl⟩

/-- C4 (amended): the decision step's `pre_change` (line 237) is the locally
cached `charger_device.ev_charger.charging_rate` threaded from the previous
cycle (startup value, then whatever line 241 last assigned), for any
successful pair of reads — it is never re-read from the ChargerController. -/
theorem C4_cached_rate (cfg : Config) (env : Env) (buf : List ℚ) (rate : ℤ) (p c u : ℚ)
    (h1 : env.powerFlow = Except.ok (p, c)) (h2 : env.chargerUsage = Except.ok u) :
    (update_charge_amp_by_solaredge_data cfg env buf rate).preChange = some rate := by
  by_cases h : rate = cycle_final cfg buf p c u
  · simp [update_charge_amp_by_solaredge_data, h1, h2, if_pos h]
  · cases henv : env.updateResult with
    | error e => simp [update_charge_amp_by_solaredge_data, h1, h2, if_neg h, henv]
    | ok r => simp [update_charge_amp_by_solaredge_data, h1, h2, if_neg h, henv]

/-- C4 witness: with cached rate 10 A the decision compares against 10. -/
theorem C4_witness :
    (update_charge_amp_by_solaredge_data cfg0 envOOB [] 10).preChange = some 10 :=
  C4_cached_rate cfg0 envOOB [] 10 5 2 (1/40) rfl rfl

/-- C4 counterexample: with an out-of-band setpoint of 20 A on the charger
(`spec_last_commanded`), the decision still uses the cached 10 A, refuting
the claim that `lastCommandedAmps` is re-read at cycle start. -/
theorem C4_counterexample :
    (update_charge_amp_by_solaredge_data cfg0 envOOB [] 10).preChange = some 10 ∧
    spec_last_commanded envOOB = 20 ∧ (10:ℤ) ≠ 20 := by
  refine ⟨?_, rfl, by decide⟩
  simp only [update_charge_amp_by_solaredge_data,
    show envOOB.powerFlow = Except.ok ((5:ℚ), (2:ℚ)) from rfl,
    show envOOB.chargerUsage = Except.ok ((1:ℚ)/40) from rfl,
    show envOOB.updateResult = Except.ok (18:ℤ) from rfl,
    if_neg (show ¬ ((10:ℤ) = cycle_final cfg0 [] 5 2 (1/40)) from by
      rw [cycle_final_eval]; decide)]
